import Mathlib

/-
  Shallow embedding of src/cpu.c, the 6502 instruction core of the
  NES_Emulator_CSIS330_Term_Project repository.

  Conventions of the embedding:
  - C unsigned char values are Nat values kept below 256 and C unsigned short
    values are Nat values kept below 65536; every assignment whose C right hand
    side is an arithmetic expression is reduced with the modulus the C type
    conversion applies.  Direct field-to-field copies of equal C type are
    copied without a modulus, exactly as C does.
  - The CPU struct, the STATUS_FLAG enum, the opcode lookup table and the bus
    are declared in cpu.h and bus code, which are not part of src/; they are
    modelled from the spec where noted.
  - C functions mutating the CPU through a pointer become Lean functions from
    CPU to CPU; the addressing-mode and operation functions of cpu.c return an
    unsigned char as well, so they become functions from CPU to CPU x Nat.
-/

/-- Modelled from the spec: the CPU struct lives in the missing cpu.h.
Fields follow spec section 3: registers a, x, y, stack pointer stkp, program
counter pc, the status byte, the per-instruction intermediates fetched,
addr_abs, addr_rel, opcode and cycles, and the external byte-addressed
memory interface (the bus reference) modelled as a total function. -/
structure CPU where
  a : Nat
  x : Nat
  y : Nat
  stkp : Nat
  pc : Nat
  status : Nat
  fetched : Nat
  addr_abs : Nat
  addr_rel : Nat
  opcode : Nat
  cycles : Nat
  mem : Nat → Nat

/-- Modelled from the spec: the STATUS_FLAG enum lives in the missing cpu.h.
Spec section 3 lists the status bits in the order N V - B D I Z C. -/
inductive STATUS_FLAG where
  | C
  | Z
  | I
  | D
  | B
  | U
  | V
  | N

/-- Modelled from the spec: the bit mask each STATUS_FLAG enumerator carries,
following the bit order of spec section 3 (C is bit 0 through N bit 7). -/
def STATUS_FLAG.val : STATUS_FLAG → Nat
  | .C => 0x01
  | .Z => 0x02
  | .I => 0x04
  | .D => 0x08
  | .B => 0x10
  | .U => 0x20
  | .V => 0x40
  | .N => 0x80

/-- cpu.c lines 5-10: cpu_read forwards to bus_read.  The bus (external, spec
section 6) is modelled as the mem function of the CPU record; the unsigned
short address and unsigned char result conversions are made explicit. -/
def cpu_read (cpu : CPU) (addr : Nat) : Nat :=
  cpu.mem (addr % 65536) % 256

/-- cpu.c lines 12-17: cpu_write forwards to bus_write, updating one byte of
the modelled memory function at the 16-bit address. -/
def cpu_write (cpu : CPU) (addr byte : Nat) : CPU :=
  { cpu with mem := fun a2 => if a2 = addr % 65536 then byte % 256 else cpu.mem a2 }

/-- cpu.c lines 46-57: cpu_getFlag returns 1 when the masked status bit is
nonzero and 0 otherwise. -/
def cpu_getFlag (cpu : CPU) (f : STATUS_FLAG) : Nat :=
  if cpu.status &&& f.val > 0 then 1 else 0

/-- cpu.c lines 59-73: cpu_setFlag computes the updated status byte into the
local variable status and then returns WITHOUT assigning it to the CPU state:
the C function body never performs the write back, so the CPU is returned
unchanged.  The complement mask of the C expression status and not f is
written as xor with 255 on the 8-bit status. -/
def cpu_setFlag (cpu : CPU) (f : STATUS_FLAG) (set : Bool) : CPU :=
  let _status : Nat :=
    if set then cpu.status ||| f.val else cpu.status &&& (255 ^^^ f.val)
  cpu

/-- Modelled from the spec: one entry of the opcode lookup table declared in
the missing cpu.h (spec section 3): an addressing-mode function, an operation
function and a base cycle count.  The C code compares the stored
addressing-mode function pointer against IMP (cpu.c line 78); that pointer
comparison is modelled by the boolean field addrModeIsIMP. -/
structure INSTRUCTION where
  addrModeIsIMP : Bool
  addr_mode : CPU → CPU × Nat
  operate : CPU → CPU × Nat
  cycles : Nat

/-- cpu.c lines 75-81: cpu_fetch reads the operand byte at addr_abs into
fetched unless the opcode entry uses the implied addressing mode. -/
def cpu_fetch (lookup : Nat → INSTRUCTION) (cpu : CPU) : CPU :=
  if (lookup cpu.opcode).addrModeIsIMP then cpu
  else { cpu with fetched := cpu_read cpu cpu.addr_abs }

/-- cpu.c lines 19-44: cpu_clock.  When cycles is 0 it reads the opcode byte
at pc, advances pc, loads the base cycle count from the table, runs the
addressing-mode function then the operation function, and adds the bitwise
AND of the two returned bytes to cycles; in every case it then decrements
cycles by one.  The table is a parameter because the global lookup array is
defined outside src/. -/
def cpu_clock (lookup : Nat → INSTRUCTION) (cpu : CPU) : CPU :=
  if cpu.cycles = 0 then
    let opc := cpu_read cpu cpu.pc
    let cpu1 : CPU := { cpu with opcode := opc, pc := (cpu.pc + 1) % 65536 }
    let cpu2 : CPU := { cpu1 with cycles := (lookup opc).cycles }
    let r1 := (lookup opc).addr_mode cpu2
    let r2 := (lookup opc).operate r1.1
    let cpu3 : CPU := { r2.1 with cycles := r2.1.cycles + (r1.2 &&& r2.2) }
    { cpu3 with cycles := cpu3.cycles - 1 }
  else
    { cpu with cycles := cpu.cycles - 1 }

/-- cpu.c lines 88-98: the implied addressing mode copies the accumulator
into fetched and reports no extra cycle. -/
def IMP (cpu : CPU) : CPU × Nat :=
  ({ cpu with fetched := cpu.a }, 0)

/-- cpu.c lines 113-133: ADC.  The C body computes the 8-bit sum of a,
fetched and the carry flag into the local result, calls cpu_setFlag for V, N
and Z (V from comparing bit 7 of a with bit 7 of result, N from bit 7 of a,
Z from result being zero), never assigns result to a, never touches the C
flag, and returns 1.  The source carries a TODO saying it is not finished. -/
def ADC (lookup : Nat → INSTRUCTION) (cpu : CPU) : CPU × Nat :=
  let cpu := cpu_fetch lookup cpu
  let result := (cpu.a + cpu.fetched + cpu_getFlag cpu STATUS_FLAG.C) % 256
  let cpu := cpu_setFlag cpu STATUS_FLAG.V (decide ((cpu.a &&& 0x80) ≠ (result &&& 0x80)))
  let cpu := cpu_setFlag cpu STATUS_FLAG.N (decide ((cpu.a &&& 0x80) ≠ 0))
  let cpu := cpu_setFlag cpu STATUS_FLAG.Z (decide (result = 0))
  (cpu, 1)

/-- cpu.c lines 149-166: ASL shifts fetched left one bit (masked to 8 bits),
passing the old bit 7 to a cpu_setFlag call for C and setting N and Z from
the shifted value; the result is stored only in the fetched field. -/
def ASL (lookup : Nat → INSTRUCTION) (cpu : CPU) : CPU × Nat :=
  let cpu := cpu_fetch lookup cpu
  let cpu := cpu_setFlag cpu STATUS_FLAG.C (decide ((cpu.fetched &&& 0x80) ≠ 0))
  let cpu := { cpu with fetched := (cpu.fetched <<< 1) &&& 0xFE }
  let cpu := cpu_setFlag cpu STATUS_FLAG.N (decide ((cpu.fetched &&& 0x80) ≠ 0))
  let cpu := cpu_setFlag cpu STATUS_FLAG.Z (decide (cpu.fetched = 0))
  (cpu, 0)

/-- cpu.c lines 168-188: BCC.  The C body branches when cpu_getFlag for C
equals 1: it adds a cycle, sets addr_abs to pc plus addr_rel (16-bit), adds
another cycle when the high bytes of addr_abs and pc differ, and sets pc to
addr_abs.  The token 1= on line 180 of the source is not valid C and is read
as the intended inequality test. -/
def BCC (cpu : CPU) : CPU × Nat :=
  if cpu_getFlag cpu STATUS_FLAG.C = 1 then
    let cpu := { cpu with cycles := cpu.cycles + 1 }
    let cpu := { cpu with addr_abs := (cpu.pc + cpu.addr_rel) % 65536 }
    let cpu := if (cpu.addr_abs &&& 0xFF00) ≠ (cpu.pc &&& 0xFF00)
      then { cpu with cycles := cpu.cycles + 1 } else cpu
    ({ cpu with pc := cpu.addr_abs }, 0)
  else
    (cpu, 0)

/-- cpu.c lines 190-210: BCS, textually identical to BCC including the same
carry test and the same 1= token on line 202 read as the inequality test. -/
def BCS (cpu : CPU) : CPU × Nat :=
  if cpu_getFlag cpu STATUS_FLAG.C = 1 then
    let cpu := { cpu with cycles := cpu.cycles + 1 }
    let cpu := { cpu with addr_abs := (cpu.pc + cpu.addr_rel) % 65536 }
    let cpu := if (cpu.addr_abs &&& 0xFF00) ≠ (cpu.pc &&& 0xFF00)
      then { cpu with cycles := cpu.cycles + 1 } else cpu
    ({ cpu with pc := cpu.addr_abs }, 0)
  else
    (cpu, 0)

/-- cpu.c lines 410-421: JMP fetches and then assigns the single fetched
byte to the 16-bit pc. -/
def JMP (lookup : Nat → INSTRUCTION) (cpu : CPU) : CPU × Nat :=
  let cpu := cpu_fetch lookup cpu
  ({ cpu with pc := cpu.fetched }, 0)

/-- cpu.c lines 423-439: JSR writes the high then the low byte of pc minus
one (16-bit wrap) to the stack page at 0x0100 plus stkp, decrementing stkp
by one with 8-bit wrap after each write, then sets pc to addr_abs. -/
def JSR (cpu : CPU) : CPU × Nat :=
  let progCounter := (cpu.pc + 65535) % 65536
  let cpu := cpu_write cpu (0x0100 + cpu.stkp) ((progCounter >>> 8) &&& 0x00FF)
  let cpu := { cpu with stkp := (cpu.stkp + 255) % 256 }
  let cpu := cpu_write cpu (0x0100 + cpu.stkp) (progCounter &&& 0x00FF)
  let cpu := { cpu with stkp := (cpu.stkp + 255) % 256 }
  ({ cpu with pc := cpu.addr_abs }, 0)

/-- cpu.c lines 441-455: LDA fetches, copies fetched into a, and passes the
N and Z conditions of the loaded value to cpu_setFlag. -/
def LDA (lookup : Nat → INSTRUCTION) (cpu : CPU) : CPU × Nat :=
  let cpu := cpu_fetch lookup cpu
  let cpu := { cpu with a := cpu.fetched }
  let cpu := cpu_setFlag cpu STATUS_FLAG.N (decide ((cpu.a &&& 0x80) ≠ 0))
  let cpu := cpu_setFlag cpu STATUS_FLAG.Z (decide (cpu.a = 0))
  (cpu, 1)

/-- cpu.c lines 489-506: LSR clears N, passes the old bit 0 to a cpu_setFlag
call for C, shifts fetched right one bit and sets Z from the result; the
result is stored only in the fetched field. -/
def LSR (lookup : Nat → INSTRUCTION) (cpu : CPU) : CPU × Nat :=
  let cpu := cpu_fetch lookup cpu
  let cpu := cpu_setFlag cpu STATUS_FLAG.N false
  let cpu := cpu_setFlag cpu STATUS_FLAG.C (decide ((cpu.fetched &&& 0x01) ≠ 0))
  let cpu := { cpu with fetched := (cpu.fetched >>> 1) &&& 0x7F }
  let cpu := cpu_setFlag cpu STATUS_FLAG.Z (decide (cpu.fetched = 0))
  (cpu, 0)

/-- cpu.c lines 508-516: NOP does nothing and returns 0. -/
def NOP (cpu : CPU) : CPU × Nat :=
  (cpu, 0)

/-- cpu.c lines 535-553: ROL saves the old bit 7 as rotator, shifts fetched
left, ORs the current carry flag value into bit 0, then passes rotator to a
cpu_setFlag call for C and sets N and Z from the rotated value; the result is
stored only in the fetched field. -/
def ROL (lookup : Nat → INSTRUCTION) (cpu : CPU) : CPU × Nat :=
  let cpu := cpu_fetch lookup cpu
  let rotator := cpu.fetched &&& 0x80
  let cpu := { cpu with fetched := (cpu.fetched <<< 1) &&& 0xFE }
  let cpu := { cpu with fetched := cpu.fetched ||| cpu_getFlag cpu STATUS_FLAG.C }
  let cpu := cpu_setFlag cpu STATUS_FLAG.C (decide (rotator ≠ 0))
  let cpu := cpu_setFlag cpu STATUS_FLAG.N (decide ((cpu.fetched &&& 0x80) ≠ 0))
  let cpu := cpu_setFlag cpu STATUS_FLAG.Z (decide (cpu.fetched = 0))
  (cpu, 0)

/-- cpu.c lines 555-573: ROR saves the old bit 0 as rotator, shifts fetched
right, ORs the current carry flag value into the result (bit 0, not the
vacated bit 7), then passes rotator to a cpu_setFlag call for C and sets N
and Z from the rotated value; the result is stored only in the fetched
field. -/
def ROR (lookup : Nat → INSTRUCTION) (cpu : CPU) : CPU × Nat :=
  let cpu := cpu_fetch lookup cpu
  let rotator := cpu.fetched &&& 0x01
  let cpu := { cpu with fetched := (cpu.fetched >>> 1) &&& 0x7F }
  let cpu := { cpu with fetched := cpu.fetched ||| cpu_getFlag cpu STATUS_FLAG.C }
  let cpu := cpu_setFlag cpu STATUS_FLAG.C (decide (rotator ≠ 0))
  let cpu := cpu_setFlag cpu STATUS_FLAG.N (decide ((cpu.fetched &&& 0x80) ≠ 0))
  let cpu := cpu_setFlag cpu STATUS_FLAG.Z (decide (cpu.fetched = 0))
  (cpu, 0)

/-- cpu.c lines 608-617: STA copies a into the fetched field and returns 1;
the C body performs no cpu_write call. -/
def STA (cpu : CPU) : CPU × Nat :=
  ({ cpu with fetched := cpu.a }, 1)

/-- cpu.c lines 619-628: STX copies x into the fetched field and returns 1;
the C body performs no cpu_write call. -/
def STX (cpu : CPU) : CPU × Nat :=
  ({ cpu with fetched := cpu.x }, 1)

/-- cpu.c lines 722-732: XXX, the illegal opcode catch, does nothing and
returns 0. -/
def XXX (cpu : CPU) : CPU × Nat :=
  (cpu, 0)

/-- A CPU state with every register, flag and memory byte zero and cycles
zero, used as the base of the concrete test states. -/
def cpu0 : CPU :=
  { a := 0, x := 0, y := 0, stkp := 0, pc := 0, status := 0, fetched := 0,
    addr_abs := 0, addr_rel := 0, opcode := 0, cycles := 0, mem := fun _ => 0 }

/-- Modelled from the spec: a lookup table whose every entry uses the implied
addressing mode with the NOP operation and base cycle count 2, used as a
concrete table for evaluating operations whose addressing mode is IMP. -/
def tblIMP : Nat → INSTRUCTION :=
  fun _ => ⟨true, IMP, NOP, 2⟩

/-- Modelled from the spec: a lookup table whose every entry uses a
memory-consuming (non implied) addressing mode, so cpu_fetch reads the byte
at addr_abs; used as a concrete table for evaluating memory operands. -/
def tblMEM : Nat → INSTRUCTION :=
  fun _ => ⟨false, IMP, NOP, 4⟩

/-- Modelled from the spec: the opcode table maps every undocumented opcode
to the illegal-opcode no-op with an IMP-equivalent addressing mode and cycle
count 2 (spec section 3). -/
def illegalEntry : INSTRUCTION :=
  ⟨true, IMP, XXX, 2⟩

/-- Modelled from the spec: a lookup table sending every opcode to the
illegal-opcode entry, used to evaluate one clock tick of an undocumented
opcode. -/
def tblXXX : Nat → INSTRUCTION :=
  fun _ => illegalEntry


/-- Concrete state for the flag round trip: status byte all zeros. -/
def cpuFlagsClear : CPU := cpu0

/-- Concrete state for the flag round trip: status byte all ones. -/
def cpuFlagsSet : CPU := { cpu0 with status := 0xFF }

/-- Claim C1: the claim asks that cpu_setFlag followed by cpu_getFlag on the
same flag returns the written value and that the updated status byte is
persisted.  The code fails this: cpu_setFlag returns the CPU unchanged for
every flag and value, so setting C to true on an all-clear status still reads
back 0, and clearing C on an all-set status still reads back 1. -/
theorem C1_setFlag_discards_update :
    (∀ (cpu : CPU) (f : STATUS_FLAG) (v : Bool), cpu_setFlag cpu f v = cpu) ∧
    cpu_getFlag (cpu_setFlag cpuFlagsClear STATUS_FLAG.C true) STATUS_FLAG.C = 0 ∧
    cpu_getFlag (cpu_setFlag cpuFlagsSet STATUS_FLAG.C false) STATUS_FLAG.C = 1 := by
  refine ⟨fun cpu f v => rfl, by decide, by decide⟩

/-- Concrete state for ADC: accumulator 0x7F, operand 0x01, carry clear. -/
def cpuADC : CPU := { cpu0 with a := 0x7F, fetched := 0x01 }

/-- Claim C3: the claim asks that ADC stores the masked sum in the
accumulator and sets C, V, N, Z as on the 6502; at A equal 0x7F, fetched
0x01, carry-in 0 the accumulator should become 0x80 with N and V set.  The
code (marked TODO, not finished) never writes the sum to A and cpu_setFlag
discards every flag write, so the state is returned unchanged: A stays 0x7F
and the status byte stays 0. -/
theorem C3_ADC_unfinished :
    (ADC tblIMP cpuADC).1.a = 0x7F ∧ (ADC tblIMP cpuADC).1.status = 0 ∧
    (ADC tblIMP cpuADC).1 = cpuADC := by
  refine ⟨by decide, by decide, rfl⟩

/-- Concrete branch state with the carry flag clear. -/
def cpuBr : CPU := { cpu0 with pc := 0x8000, addr_rel := 0x10, cycles := 2 }

/-- Concrete branch state with the carry flag set. -/
def cpuBrC : CPU := { cpuBr with status := 0x01 }

/-- Claim C4: the claim asks that BCC branches exactly when the carry flag is
clear.  The code tests cpu_getFlag C equal 1, so with carry clear it leaves
the state unchanged (no branch, no added cycle), and with carry set it takes
the branch: pc becomes 0x8010 and a cycle is added. -/
theorem C4_BCC_polarity_inverted :
    (BCC cpuBr).1 = cpuBr ∧
    (BCC cpuBrC).1.pc = 0x8010 ∧ (BCC cpuBrC).1.cycles = 3 := by
  refine ⟨rfl, by decide, by decide⟩

/-- Concrete accumulator-mode shift state: operand 0x80, carry clear. -/
def cpuShift : CPU := { cpu0 with a := 0x80, fetched := 0x80 }

/-- Concrete rotate-right state: operand 0x00, carry set. -/
def cpuRor : CPU := { cpu0 with status := 0x01, fetched := 0x00 }

/-- Claim C6: the claim asks that the shifts and rotates put the ejected bit
into the carry flag, that ROL and ROR feed the previous carry into the
vacated bit, and that the result is written back to the resolved register or
memory cell.  The code fails all three ways: shifting 0x80 left with ASL in
accumulator mode leaves the status byte 0 (the carry write is discarded by
cpu_setFlag) and leaves the accumulator 0x80 (the result lives only in the
fetched field, here 0x00); rotating 0x00 right with carry set yields fetched
0x01 because ROR ORs the old carry into bit 0 instead of the vacated bit 7,
and the status byte stays 0x01. -/
theorem C6_shift_rotate_divergence :
    (ASL tblIMP cpuShift).1.status = 0 ∧
    (ASL tblIMP cpuShift).1.a = 0x80 ∧
    (ASL tblIMP cpuShift).1.fetched = 0x00 ∧
    (ROR tblIMP cpuRor).1.fetched = 0x01 ∧
    (ROR tblIMP cpuRor).1.status = 0x01 := by
  refine ⟨by decide, by decide, by decide, by decide, by decide⟩

/-- Concrete load state: memory holds 0x80 at the resolved address 0x10. -/
def cpuLoad : CPU :=
  { cpu0 with addr_abs := 0x10, mem := fun a2 => if a2 = 0x10 then 0x80 else 0 }

/-- Concrete store state: accumulator 0x37, resolved address 0x10, memory
all zero. -/
def cpuStore : CPU := { cpu0 with a := 0x37, addr_abs := 0x10 }

/-- Claim C7: the claim asks that loads set N and Z from the loaded value and
that stores write the register to the resolved address.  Loading 0x80 does
set the accumulator but leaves the status byte 0 (the N write is discarded
by cpu_setFlag), and STA with accumulator 0x37 leaves the byte at the
resolved address 0x10 equal 0: the store only copies the register into the
fetched field and never calls cpu_write.  STX diverges the same way. -/
theorem C7_load_store_divergence :
    (LDA tblMEM cpuLoad).1.a = 0x80 ∧
    (LDA tblMEM cpuLoad).1.status = 0 ∧
    (STA cpuStore).1.mem 0x10 = 0 ∧
    (STA cpuStore).1.fetched = 0x37 ∧
    (STX { cpuStore with x := 0x42 }).1.mem 0x10 = 0 ∧
    (STX { cpuStore with x := 0x42 }).1.fetched = 0x42 := by
  refine ⟨by decide, by decide, by decide, by decide, by decide, by decide⟩

/-- Concrete jump state: addr_abs 0x9000, memory byte 0x34 there. -/
def cpuJmp : CPU :=
  { cpu0 with pc := 0x8000, addr_abs := 0x9000, mem := fun a2 => if a2 = 0x9000 then 0x34 else 0 }

/-- Claim C8: the claim asks that JMP sets the full 16-bit pc to addr_abs.
The code instead fetches the single byte at addr_abs and assigns that 8-bit
value to pc: with addr_abs 0x9000 holding the byte 0x34 the pc becomes
0x0034, not 0x9000. -/
theorem C8_JMP_sets_pc_to_byte :
    (JMP tblMEM cpuJmp).1.pc = 0x34 ∧ (JMP tblMEM cpuJmp).1.pc ≠ 0x9000 := by
  refine ⟨by decide, by decide⟩

/-- Claim C10: BCC and BCS are extensionally equal: their bodies are
textually identical, both testing cpu_getFlag C equal 1, so on every CPU
state they produce the same state and return value, and both set pc to the
16-bit sum of pc and addr_rel exactly when the carry flag reads as set,
leaving pc unchanged otherwise. -/
theorem C10_BCC_BCS_equal (cpu : CPU) :
    BCC cpu = BCS cpu ∧
    (BCC cpu).1.pc =
      (if cpu_getFlag cpu STATUS_FLAG.C = 1
       then (cpu.pc + cpu.addr_rel) % 65536 else cpu.pc) := by
  refine ⟨rfl, ?_⟩
  by_cases h : cpu_getFlag cpu STATUS_FLAG.C = 1
  · simp only [BCC, if_pos h]
    split <;> simp
  · simp only [BCC, if_neg h, if_neg h]

/-- For byte signals known to be 0 or 1, the bitwise AND of cpu_clock equals
the logical AND the spec describes. -/
theorem land_le_one_eq (a b : Nat) (ha : a ≤ 1) (hb : b ≤ 1) :
    a &&& b = if a = 1 ∧ b = 1 then 1 else 0 := by
  interval_cases a <;> interval_cases b <;> decide

/-- Claim C2: with cycles 0 a tick reads the byte at pc, advances pc by one
(16-bit wrap), sets cycles to the base count of the table entry for that
opcode, runs the addressing-mode function then the operation function, adds
one extra cycle exactly when both returned 1, and finally decrements cycles
by one; with cycles positive a tick only decrements cycles by one.  The
hypotheses record the spec guarantee that the table functions return 0 or 1,
under which the bitwise AND of the code is the logical AND of the claim. -/
theorem C2_cpu_clock_tick (lookup : Nat → INSTRUCTION)
    (h1 : ∀ k s, ((lookup k).addr_mode s).2 ≤ 1)
    (h2 : ∀ k s, ((lookup k).operate s).2 ≤ 1)
    (cpu : CPU) :
    (cpu.cycles = 0 →
      cpu_clock lookup cpu =
        (let opc := cpu_read cpu cpu.pc
         let s1 : CPU := { cpu with opcode := opc, pc := (cpu.pc + 1) % 65536, cycles := (lookup opc).cycles }
         let r1 := (lookup opc).addr_mode s1
         let r2 := (lookup opc).operate r1.1
         { r2.1 with
           cycles := r2.1.cycles + (if r1.2 = 1 ∧ r2.2 = 1 then 1 else 0) - 1 })) ∧
    (0 < cpu.cycles →
      cpu_clock lookup cpu = { cpu with cycles := cpu.cycles - 1 }) := by
  constructor
  · intro h0
    simp only [cpu_clock, if_pos h0]
    rw [land_le_one_eq _ _ (h1 _ _) (h2 _ _)]
  · intro hpos
    simp only [cpu_clock, if_neg (Nat.pos_iff_ne_zero.mp hpos)]

/-- Witness for claim C2: on the all-zero CPU state with the constant
IMP-and-NOP table (base count 2) a tick fetches opcode 0, advances pc to 1,
copies the accumulator into fetched and leaves cycles at 2 minus 1. -/
theorem C2_cpu_clock_tick_witness :
    cpu_clock tblIMP cpu0 = { cpu0 with pc := 1, cycles := 1 } :=
  ((C2_cpu_clock_tick tblIMP (fun _ _ => Nat.zero_le 1) (fun _ _ => Nat.zero_le 1)
    cpu0).1 rfl).trans rfl

/-- Claim C5: JSR writes the high byte of pc minus one (16-bit wrap) at
0x0100 plus the stack pointer, decrements the stack pointer with 8-bit wrap,
writes the low byte at 0x0100 plus the decremented stack pointer, decrements
it again, and sets pc to addr_abs.  Stated for every CPU state whose stack
pointer is a byte, as the unsigned char field guarantees in C. -/
theorem C5_JSR_pushes_return_address (cpu : CPU) (hs : cpu.stkp < 256) :
    (JSR cpu).1.pc = cpu.addr_abs ∧
    (JSR cpu).1.stkp = (cpu.stkp + 254) % 256 ∧
    (JSR cpu).1.mem (0x0100 + cpu.stkp) = (((cpu.pc + 65535) % 65536) >>> 8) &&& 0x00FF ∧
    (JSR cpu).1.mem (0x0100 + (cpu.stkp + 255) % 256) = ((cpu.pc + 65535) % 65536) &&& 0x00FF := by
  have hhi : (((cpu.pc + 65535) % 65536) >>> 8) &&& 0x00FF < 256 :=
    Nat.lt_succ_of_le Nat.and_le_right
  have hlo : ((cpu.pc + 65535) % 65536) &&& 0x00FF < 256 :=
    Nat.lt_succ_of_le Nat.and_le_right
  have ha1 : (0x0100 + cpu.stkp) % 65536 = 0x0100 + cpu.stkp := by omega
  have ha2 : (0x0100 + (cpu.stkp + 255) % 256) % 65536
      = 0x0100 + (cpu.stkp + 255) % 256 := by omega
  have hne : 0x0100 + cpu.stkp ≠ 0x0100 + (cpu.stkp + 255) % 256 := by omega
  refine ⟨rfl, by simp only [JSR, cpu_write]; omega, ?_, ?_⟩
  · simp only [JSR, cpu_write, ha1, ha2]
    split_ifs <;> omega
  · simp only [JSR, cpu_write, ha1, ha2]
    split_ifs <;> omega

/-- Witness for claim C5, the concrete spec test: JSR at pc 0x8003 with
addr_abs 0x9000 and stack pointer 0xFD leaves 0x80 at 0x01FD, 0x02 at
0x01FC, the stack pointer at 0xFB and pc at 0x9000. -/
theorem C5_JSR_witness :
    (JSR { cpu0 with pc := 0x8003, addr_abs := 0x9000, stkp := 0xFD }).1.pc = 0x9000 ∧
    (JSR { cpu0 with pc := 0x8003, addr_abs := 0x9000, stkp := 0xFD }).1.stkp = 0xFB ∧
    (JSR { cpu0 with pc := 0x8003, addr_abs := 0x9000, stkp := 0xFD }).1.mem 0x01FD = 0x80 ∧
    (JSR { cpu0 with pc := 0x8003, addr_abs := 0x9000, stkp := 0xFD }).1.mem 0x01FC = 0x02 := by
  have h := C5_JSR_pushes_return_address
    { cpu0 with pc := 0x8003, addr_abs := 0x9000, stkp := 0xFD } (by decide)
  exact ⟨h.1.trans rfl, h.2.1.trans (by decide), h.2.2.1.trans (by decide),
    h.2.2.2.trans (by decide)⟩

/-- Claim C9: executing an undocumented opcode through one clock tick is
absorbed as a no-op: with the table sending the fetched byte to the
illegal-opcode entry (IMP mode, XXX operation, base count 2, the mapping the
spec fixes for undocumented opcodes), the registers, the status byte and the
memory are unchanged, and only the normal fetch and cycle accounting happen:
pc advances by one, the opcode byte is latched, fetched receives the
accumulator from the IMP step, and cycles ends at 1.  The XXX operation
itself is total and returns every state unchanged with signal 0. -/
theorem C9_illegal_opcode_noop (lookup : Nat → INSTRUCTION) (cpu : CPU)
    (h0 : cpu.cycles = 0)
    (hlk : lookup (cpu_read cpu cpu.pc) = illegalEntry) :
    (cpu_clock lookup cpu).a = cpu.a ∧
    (cpu_clock lookup cpu).x = cpu.x ∧
    (cpu_clock lookup cpu).y = cpu.y ∧
    (cpu_clock lookup cpu).stkp = cpu.stkp ∧
    (cpu_clock lookup cpu).status = cpu.status ∧
    (cpu_clock lookup cpu).mem = cpu.mem ∧
    (cpu_clock lookup cpu).pc = (cpu.pc + 1) % 65536 ∧
    (cpu_clock lookup cpu).opcode = cpu_read cpu cpu.pc ∧
    (cpu_clock lookup cpu).fetched = cpu.a ∧
    (cpu_clock lookup cpu).cycles = 1 ∧
    (∀ s : CPU, XXX s = (s, 0)) := by
  simp [cpu_clock, h0, hlk, illegalEntry, IMP, XXX, Nat.zero_and]

/-- Witness for claim C9: one tick of the all-zero CPU under the table that
maps every opcode to the illegal entry changes only pc, opcode, fetched and
cycles as fetch and cycle accounting demand. -/
theorem C9_illegal_opcode_noop_witness :
    (cpu_clock tblXXX cpu0).a = cpu0.a ∧
    (cpu_clock tblXXX cpu0).x = cpu0.x ∧
    (cpu_clock tblXXX cpu0).y = cpu0.y ∧
    (cpu_clock tblXXX cpu0).stkp = cpu0.stkp ∧
    (cpu_clock tblXXX cpu0).status = cpu0.status ∧
    (cpu_clock tblXXX cpu0).mem = cpu0.mem ∧
    (cpu_clock tblXXX cpu0).pc = (cpu0.pc + 1) % 65536 ∧
    (cpu_clock tblXXX cpu0).opcode = cpu_read cpu0 cpu0.pc ∧
    (cpu_clock tblXXX cpu0).fetched = cpu0.a ∧
    (cpu_clock tblXXX cpu0).cycles = 1 ∧
    (∀ s : CPU, XXX s = (s, 0)) :=
  C9_illegal_opcode_noop tblXXX cpu0 rfl rfl
